import Mathlib

/-!
Shallow embedding of `manager.py` (Huawei B525/B715 band-enforcement tool).

Modelling conventions:
* Python exceptions are values of `PyError`; a function that can raise
  returns a `Res α`, pairing an `Except PyError α` with the final state.
* The router is an oracle `env : Nat → Doc`: the document returned by the
  n-th read of `router.device.signal` (reads are counted in `RState.reads`).
* Every call on the Router Control Interface is recorded in `RState.trace`;
  `logger` output is recorded in `RState.log` (the real logger prepends a
  timestamp, which is irrelevant to the claims and omitted).
* Wall-clock time inside `wait_for_connection` is modelled in milliseconds:
  the deadline check at loop iteration k reads `k*1000 + d`, where the
  `time.sleep(1)` calls contribute `k*1000` and `d ≥ 0` is the (sub-second,
  `d < 1000` in all realistic runs) extra time elapsed between the call to
  `datetime.now()` that fixed `start` and the check.  The loop is given
  fuel `122`; under `0 ≤ d` this fuel is proved sufficient
  (`wait_loop_no_nonTermination`), so the `nonTermination` marker is a
  strict model artifact.
-/

namespace Manager

/-- A telemetry XML document, as the list of the root's children:
tag together with optional text (ElementTree gives `None` for an
empty element, e.g. `<band></band>`). -/
abbrev Doc := List (String × Option String)

/-- Python exception values as raised by `manager.py`:
`RuntimeError(msg)`, bare `NotImplementedError`, the `NameError` from
reading the unassigned local `ul_band`, `IndexError` from `upload_bands[0]`
on an empty list, and the plain `Exception(msg)` raised in `main`.
`nonTermination` is the fuel marker (see header). -/
inductive PyError where
  | runtimeError (msg : String)
  | notImplementedError
  | nameError
  | indexError
  | genericException (msg : String)
  | nonTermination
deriving DecidableEq

/-- In Python, `NotImplementedError` is a subclass of `RuntimeError`,
so `except RuntimeError` catches both. -/
def PyError.isRuntimeError : PyError → Bool
  | .runtimeError _ => true
  | .notImplementedError => true
  | _ => false

/-- `str(e)` as used by `logger("%s, retrying..." % e)`; only the
message-carrying exceptions ever reach that call site. -/
def PyError.pyStr : PyError → String
  | .runtimeError m => m
  | .genericException m => m
  | _ => ""

/-- One call on the Router Control Interface. -/
inductive ApiCall where
  | readSignal
  | setNetworkMode (mode : String)
  | setDataswitchOff
  | setDataswitchOn
  | setLteBand (bands : List String)
deriving DecidableEq

/-- an API call other than a telemetry read -/
def ApiCall.isControl : ApiCall → Bool
  | .readSignal => false
  | _ => true

/-- The control (non-telemetry) calls of a trace. -/
def controlCalls (tr : List ApiCall) : List ApiCall :=
  tr.filter ApiCall.isControl

/-- Observable state of a run: number of telemetry reads so far, the
trace of Router Control Interface calls, and the log lines written. -/
structure RState where
  reads : Nat
  trace : List ApiCall
  log : List String
deriving DecidableEq

/-- the state at process start -/
def rinit : RState := ⟨0, [], []⟩

instance {ε α : Type} [DecidableEq ε] [DecidableEq α] : DecidableEq (Except ε α) :=
  fun x y =>
    match x, y with
    | .ok a, .ok b => decidable_of_iff (a = b) (by simp)
    | .error e, .error f => decidable_of_iff (e = f) (by simp)
    | .ok _, .error _ => .isFalse (by simp)
    | .error _, .ok _ => .isFalse (by simp)

/-- Result of a fallible, state-changing call: the Python return value or
the exception that escaped, together with the state at that moment. -/
structure Res (α : Type) where
  result : Except PyError α
  state : RState
deriving DecidableEq

/-- global `router_name` -/
def router_name : String := "default"

/-- global `connection_timeout`, the default `timeout` argument -/
def connection_timeout : Int := 20

/-- global `upload_bands` -/
def upload_bands : List String := ["B28"]

/-- global `download_bands` -/
def download_bands : List String := ["B28", "B3", "B7"]

/-- `logger(msg)`: appends one line to the log file. -/
def logger (msg : String) (s : RState) : RState :=
  { s with log := s.log ++ [msg] }

/-- `str(x)` for the optional band inserted by `str.format`:
Python renders `None` as `"None"`. -/
def optStr : Option String → String
  | none => "None"
  | some s => s

/-- Python's `x in bands` where `x` is the `Option`-valued result of
`get_upload_band`: `None in bands` is `False` for a list of strings. -/
def optMem (x : Option String) (bands : List String) : Bool :=
  match x with
  | none => false
  | some b => bands.contains b

/-- `get_upload_band(router, numerical=False)`, the pure part: scan the
children of the signal document for the first `band` element; empty text
means not attached (`None`); otherwise return the text, `"B"`-prefixed
unless `numerical`; no `band` element at all raises `RuntimeError`. -/
def get_upload_band (doc : Doc) (numerical : Bool) : Except PyError (Option String) :=
  match doc with
  | [] => .error (.runtimeError "No band entry in device signal.")
  | (tag, text) :: rest =>
    if tag = "band" then
      match text with
      | some t => .ok (some (if numerical then t else "B" ++ t))
      | none => .ok none
    else
      get_upload_band rest numerical

/-- the state after one more telemetry read -/
def recordRead (s : RState) : RState :=
  { s with reads := s.reads + 1, trace := s.trace ++ [.readSignal] }

/-- one read of `router.device.signal`: the HTTP exchange is recorded
before the document is examined -/
def read_signal (env : Nat → Doc) (s : RState) : RState × Doc :=
  (recordRead s, env s.reads)

/-- `get_upload_band(router, numerical)` including the telemetry read. -/
def get_upload_band_r (env : Nat → Doc) (numerical : Bool) (s : RState) :
    Res (Option String) :=
  let p := read_signal env s
  { result := get_upload_band p.2 numerical, state := p.1 }

/-- the timeout log line written by `wait_for_connection` -/
def noAntennaLogMsg : String := router_name ++ " was unable to connect to an antenna."

/-- the log line written by `force_band_setting` before the corrective
mode-reset / data-switch cycle -/
def notConnectedLogMsg : String :=
  "Router " ++ router_name ++ " is not connected yet. Forcing 4G and toggling antennas off/on."

/-- the log line written at the top of each `main` loop iteration -/
def usingBandLogMsg (b : Option String) (ul0 : String) : String :=
  "Router " ++ router_name ++ " is using " ++ optStr b ++ " as upload band. Forcing " ++
    ul0 ++ " instead."

/-- the message of the generic `Exception` raised in `main` when
`force_band_setting` returns `False` -/
def forcingFailedMsg : String := "Router " ++ router_name ++ ": Forcing bands failed."

/-- the diagnostic logged by `main` when a `RuntimeError` (no antenna)
is caught: it suggests resetting the LTE band list manually -/
def noSignalRetryMsg : String :=
  "Router " ++ router_name ++
    ": Attempt to force bands failed: no antenna signal. Consider setting LTE bands to auto in the web interface"

/-- `toggle_data_off_on(router)` -/
def toggle_data_off_on (s : RState) : RState :=
  let s1 := logger (router_name ++ ": switching data off.") s
  let s2 := { s1 with trace := s1.trace ++ [.setDataswitchOff] }
  let s3 := logger (router_name ++ ": switching data on.") s2
  { s3 with trace := s3.trace ++ [.setDataswitchOn] }

/-- `force_4g(router)` -/
def force_4g (s : RState) : RState :=
  let s1 := logger (router_name ++ ": setting mode to 4G") s
  { s1 with trace := s1.trace ++ [.setNetworkMode "4G"] }

/-- `set_upload_bands(router, bands)` -/
def set_upload_bands (bands : List String) (s : RState) : RState :=
  { s with trace := s.trace ++ [.setLteBand bands] }

/-- The `while True` loop of `wait_for_connection`, at iteration `k`
(so the deadline check reads clock `k*1000 + d` against `1000*t`; see
the header).  On deadline at `k = 0` the local `ul_band` was never
assigned and the `return` raises `NameError`; at `k ≥ 1` it still holds
`None` from the previous poll, so the function returns `False`. -/
def wait_loop (env : Nat → Doc) (t d : Int) (k : Nat) (fuel : Nat) (s : RState) :
    Res Bool :=
  if (k : Int) * 1000 + d > 1000 * t then
    if k = 0 then
      { result := .error .nameError, state := logger noAntennaLogMsg s }
    else
      { result := .ok false, state := logger noAntennaLogMsg s }
  else
    match get_upload_band_r env false s with
    | ⟨.error e, s1⟩ => ⟨.error e, s1⟩
    | ⟨.ok (some _), s1⟩ => ⟨.ok true, s1⟩
    | ⟨.ok none, s1⟩ =>
      match fuel with
      | 0 => ⟨.error .nonTermination, s1⟩
      | fuel' + 1 => wait_loop env t d (k + 1) fuel' s1

/-- `wait_for_connection(router, timeout)`: reject `timeout > 120` before
any polling, else run the polling loop. -/
def wait_for_connection (env : Nat → Doc) (d : Int) (timeout : Int) (s : RState) :
    Res Bool :=
  if timeout > 120 then
    { result := .error (.runtimeError
        ("Timeout value " ++ toString timeout ++ " is too large.")),
      state := s }
  else
    wait_loop env timeout d 0 122 s

/-- `force_band_setting(router, ul_bands, dl_bands)`.  Both
`wait_for_connection` calls use the default timeout
(`connection_timeout = 20`). -/
def force_band_setting (env : Nat → Doc) (d : Int) (ul_bands dl_bands : List String)
    (s : RState) : Res Bool :=
  if ul_bands.length > 1 then
    ⟨.error .notImplementedError, s⟩
  else
    match wait_for_connection env d connection_timeout s with
    | ⟨.error e, s1⟩ => ⟨.error e, s1⟩
    | ⟨.ok b1, s1⟩ =>
      let s2 :=
        if b1 then s1
        else
          toggle_data_off_on (force_4g (logger notConnectedLogMsg s1))
      match wait_for_connection env d connection_timeout s2 with
      | ⟨.error e, s3⟩ => ⟨.error e, s3⟩
      | ⟨.ok b2, s3⟩ =>
        if !b2 then
          ⟨.error (.runtimeError "Could not acquire any antenna #1."), s3⟩
        else
          match get_upload_band_r env false s3 with
          | ⟨.error e, s4⟩ => ⟨.error e, s4⟩
          | ⟨.ok cur, s4⟩ =>
            if optMem cur ul_bands then
              ⟨.ok true, s4⟩
            else
              let s5 := set_upload_bands dl_bands (set_upload_bands ul_bands s4)
              match wait_for_connection env d connection_timeout s5 with
              | ⟨.error e, s6⟩ => ⟨.error e, s6⟩
              | ⟨.ok b3, s6⟩ =>
                if !b3 then
                  ⟨.error (.runtimeError "Could not acquire any antenna #2."), s6⟩
                else
                  match get_upload_band_r env false s6 with
                  | ⟨.error e, s7⟩ => ⟨.error e, s7⟩
                  | ⟨.ok cur2, s7⟩ => ⟨.ok (optMem cur2 ul_bands), s7⟩

/-- Observable result of the `while` loop of `main` (lines 228-237):
`exited` — guard false, attached band equals `upload_bands[0]`;
`uncaught` — an exception escaped the loop (the guard and the logger
argument call `get_upload_band` outside the `try`);
`running` — fuel exhausted with the loop still going (the real loop has
no attempt cap, so `running` for every fuel means it never stops). -/
inductive LoopResult where
  | exited (s : RState)
  | uncaught (e : PyError) (s : RState)
  | running (s : RState)
deriving DecidableEq

/-- The enforcement loop of `main`:
`while get_upload_band(router) != upload_bands[0]:` with body
`logger(... get_upload_band(router) ...)`, then
`try: if not force_band_setting(...): raise Exception(...)`
`except RuntimeError: logger(no-antenna diagnostic)`
`except Exception as e: logger(str(e) + ", retrying...")`.
`fuel` only bounds how many iterations we observe. -/
def main_loop (env : Nat → Doc) (d : Int) (ul dl : List String) :
    Nat → RState → LoopResult
  | 0, s => .running s
  | fuel + 1, s =>
    match ul with
    | [] => .uncaught .indexError s
    | ul0 :: _ =>
      match get_upload_band_r env false s with
      | ⟨.error e, s1⟩ => .uncaught e s1
      | ⟨.ok b, s1⟩ =>
        if b = some ul0 then .exited s1
        else
          match get_upload_band_r env false s1 with
          | ⟨.error e, s2⟩ => .uncaught e s2
          | ⟨.ok b2, s2⟩ =>
            let s3 := logger (usingBandLogMsg b2 ul0) s2
            match force_band_setting env d ul dl s3 with
            | ⟨.ok true, s4⟩ => main_loop env d ul dl fuel s4
            | ⟨.ok false, s4⟩ =>
              main_loop env d ul dl fuel (logger (forcingFailedMsg ++ ", retrying...") s4)
            | ⟨.error e, s4⟩ =>
              if e.isRuntimeError then
                main_loop env d ul dl fuel (logger noSignalRetryMsg s4)
              else
                main_loop env d ul dl fuel (logger (e.pyStr ++ ", retrying...") s4)

/-- telemetry of a router that is powered but never attached:
the `band` element is present with empty text -/
def envNone : Nat → Doc := fun _ => [("band", none)]

/-- telemetry of a router attached to band 28 on every read -/
def envB28 : Nat → Doc := fun _ => [("band", some "28")]

/-- telemetry of a router attached to band 3 for the first three reads and
to band 28 afterwards (i.e. the reconfiguration succeeds) -/
def envFix : Nat → Doc := fun n => if n ≤ 2 then [("band", some "3")] else [("band", some "28")]

/-- malformed telemetry: no `band` element at all -/
def envNoBand : Nat → Doc := fun _ => [("rssi", some "-75")]

end Manager

namespace Manager

/-- C2 helper: `get_upload_band` is determined by the first `band` child. -/
theorem get_upload_band_eq_find (doc : Doc) (numerical : Bool) :
    get_upload_band doc numerical =
      match doc.find? (fun c => c.1 == "band") with
      | none => .error (.runtimeError "No band entry in device signal.")
      | some (_, none) => .ok none
      | some (_, some t) => .ok (some (if numerical then t else "B" ++ t)) := by
  induction doc with
  | nil => rfl
  | cons c rest ih =>
    obtain ⟨tag, text⟩ := c
    rw [List.find?_cons]
    by_cases h : tag = "band"
    · subst h
      cases text <;> simp [get_upload_band]
    · have hb : (tag == "band") = false := by simpa using h
      rw [hb]
      simpa [get_upload_band, h] using ih

/-- The only exception `get_upload_band` itself raises is the
missing-band `RuntimeError`. -/
theorem get_upload_band_error_eq (doc : Doc) (numerical : Bool) (e : PyError)
    (h : get_upload_band doc numerical = .error e) :
    e = .runtimeError "No band entry in device signal." := by
  induction doc with
  | nil => simpa [get_upload_band, eq_comm] using h
  | cons c rest ih =>
    obtain ⟨tag, text⟩ := c
    by_cases htag : tag = "band"
    · subst htag
      cases text <;> simp [get_upload_band] at h
    · exact ih (by simpa [get_upload_band, htag] using h)

/-- One-step unfolding: deadline fires at iteration `0` — the local
`ul_band` was never assigned, so the `return` raises `NameError`. -/
theorem wait_loop_deadline0 (env : Nat → Doc) (t d : Int) (fuel : Nat) (s : RState)
    (hdl : d > 1000 * t) :
    wait_loop env t d 0 fuel s =
      ⟨.error .nameError, logger noAntennaLogMsg s⟩ := by
  have hdl' : ((0 : Nat) : Int) * 1000 + d > 1000 * t := by push_cast; omega
  rw [wait_loop, if_pos hdl']
  rfl

/-- One-step unfolding: deadline fires at iteration `k ≥ 1` — the
previous poll left `ul_band = None`, so the function returns `False`. -/
theorem wait_loop_deadline (env : Nat → Doc) (t d : Int) (k fuel : Nat) (s : RState)
    (hdl : (k : Int) * 1000 + d > 1000 * t) (hk : k ≠ 0) :
    wait_loop env t d k fuel s =
      ⟨.ok false, logger noAntennaLogMsg s⟩ := by
  rw [wait_loop, if_pos hdl, if_neg hk]

/-- One-step unfolding: the poll raises (malformed telemetry). -/
theorem wait_loop_poll_error (env : Nat → Doc) (t d : Int) (k fuel : Nat) (s : RState)
    (e : PyError) (hdl : ¬((k : Int) * 1000 + d > 1000 * t))
    (hb : get_upload_band (env s.reads) false = .error e) :
    wait_loop env t d k fuel s = ⟨.error e, recordRead s⟩ := by
  rw [wait_loop, if_neg hdl]
  simp only [get_upload_band_r, read_signal, hb]

/-- One-step unfolding: the poll observes a band and the loop breaks. -/
theorem wait_loop_poll_some (env : Nat → Doc) (t d : Int) (k fuel : Nat) (s : RState)
    (b : String) (hdl : ¬((k : Int) * 1000 + d > 1000 * t))
    (hb : get_upload_band (env s.reads) false = .ok (some b)) :
    wait_loop env t d k fuel s = ⟨.ok true, recordRead s⟩ := by
  rw [wait_loop, if_neg hdl]
  simp only [get_upload_band_r, read_signal, hb]

/-- One-step unfolding: the poll observes no band, sleep and loop. -/
theorem wait_loop_poll_none (env : Nat → Doc) (t d : Int) (k f : Nat) (s : RState)
    (hdl : ¬((k : Int) * 1000 + d > 1000 * t))
    (hb : get_upload_band (env s.reads) false = .ok none) :
    wait_loop env t d k (f + 1) s = wait_loop env t d (k + 1) f (recordRead s) := by
  rw [wait_loop, if_neg hdl]
  simp only [get_upload_band_r, read_signal, hb]

/-- One-step unfolding: the fuel marker (never reached when `0 ≤ d`,
see `wait_loop_no_nonTermination`). -/
theorem wait_loop_poll_none_zero (env : Nat → Doc) (t d : Int) (k : Nat) (s : RState)
    (hdl : ¬((k : Int) * 1000 + d > 1000 * t))
    (hb : get_upload_band (env s.reads) false = .ok none) :
    wait_loop env t d k 0 s = ⟨.error .nonTermination, recordRead s⟩ := by
  rw [wait_loop, if_neg hdl]
  simp only [get_upload_band_r, read_signal, hb]

/-- The polling loop never decreases the read counter. -/
theorem wait_loop_reads_mono (env : Nat → Doc) (t d : Int) :
    ∀ fuel (k : Nat) (s : RState), s.reads ≤ (wait_loop env t d k fuel s).state.reads := by
  intro fuel
  induction fuel with
  | zero =>
    intro k s
    by_cases hdl : (k : Int) * 1000 + d > 1000 * t
    · rcases Nat.eq_zero_or_pos k with hk | hk
      · subst hk
        rw [wait_loop_deadline0 env t d 0 s (show d > 1000 * t by push_cast at hdl; omega)]
        simp [logger]
      · rw [wait_loop_deadline env t d k 0 s hdl (by omega)]
        simp [logger]
    · cases hb : get_upload_band (env s.reads) false with
      | error e =>
        rw [wait_loop_poll_error env t d k 0 s e hdl hb]
        simp [recordRead]
      | ok ob =>
        cases ob with
        | none =>
          rw [wait_loop_poll_none_zero env t d k s hdl hb]
          simp [recordRead]
        | some b =>
          rw [wait_loop_poll_some env t d k 0 s b hdl hb]
          simp [recordRead]
  | succ f ih =>
    intro k s
    by_cases hdl : (k : Int) * 1000 + d > 1000 * t
    · rcases Nat.eq_zero_or_pos k with hk | hk
      · subst hk
        rw [wait_loop_deadline0 env t d (f + 1) s (show d > 1000 * t by push_cast at hdl; omega)]
        simp [logger]
      · rw [wait_loop_deadline env t d k (f + 1) s hdl (by omega)]
        simp [logger]
    · cases hb : get_upload_band (env s.reads) false with
      | error e =>
        rw [wait_loop_poll_error env t d k (f + 1) s e hdl hb]
        simp [recordRead]
      | ok ob =>
        cases ob with
        | none =>
          rw [wait_loop_poll_none env t d k f s hdl hb]
          have h1 : s.reads ≤ (recordRead s).reads := by simp [recordRead]
          exact le_trans h1 (ih (k + 1) (recordRead s))
        | some b =>
          rw [wait_loop_poll_some env t d k (f + 1) s b hdl hb]
          simp [recordRead]

/-- Entered at iteration `k ≥ 1`, the loop can no longer raise the
unassigned-variable `NameError`. -/
theorem wait_loop_no_nameError (env : Nat → Doc) (t d : Int) :
    ∀ fuel (k : Nat) (s : RState), k ≠ 0 →
      (wait_loop env t d k fuel s).result ≠ .error .nameError := by
  intro fuel
  induction fuel with
  | zero =>
    intro k s hk
    by_cases hdl : (k : Int) * 1000 + d > 1000 * t
    · rw [wait_loop_deadline env t d k 0 s hdl hk]
      simp
    · cases hb : get_upload_band (env s.reads) false with
      | error e =>
        have he := get_upload_band_error_eq _ _ _ hb
        rw [wait_loop_poll_error env t d k 0 s e hdl hb]
        simp [he]
      | ok ob =>
        cases ob with
        | none =>
          rw [wait_loop_poll_none_zero env t d k s hdl hb]
          simp
        | some b =>
          rw [wait_loop_poll_some env t d k 0 s b hdl hb]
          simp
  | succ f ih =>
    intro k s hk
    by_cases hdl : (k : Int) * 1000 + d > 1000 * t
    · rw [wait_loop_deadline env t d k (f + 1) s hdl hk]
      simp
    · cases hb : get_upload_band (env s.reads) false with
      | error e =>
        have he := get_upload_band_error_eq _ _ _ hb
        rw [wait_loop_poll_error env t d k (f + 1) s e hdl hb]
        simp [he]
      | ok ob =>
        cases ob with
        | none =>
          rw [wait_loop_poll_none env t d k f s hdl hb]
          exact ih (k + 1) (recordRead s) (by omega)
        | some b =>
          rw [wait_loop_poll_some env t d k (f + 1) s b hdl hb]
          simp

/-- With a nonnegative clock drift, fuel `t - k + 1` suffices: the
`nonTermination` marker is unreachable. -/
theorem wait_loop_no_nonTermination (env : Nat → Doc) (t d : Int) (hd : 0 ≤ d) :
    ∀ (fuel k : Nat) (s : RState), t - (k : Int) + 1 ≤ (fuel : Int) →
      (wait_loop env t d k fuel s).result ≠ .error .nonTermination := by
  intro fuel
  induction fuel with
  | zero =>
    intro k s hfuel
    have hdl : (k : Int) * 1000 + d > 1000 * t := by
      have hk : t + 1 ≤ (k : Int) := by omega
      nlinarith
    rcases Nat.eq_zero_or_pos k with hk | hk
    · subst hk
      rw [wait_loop_deadline0 env t d 0 s (show d > 1000 * t by push_cast at hdl; omega)]
      simp
    · rw [wait_loop_deadline env t d k 0 s hdl (by omega)]
      simp
  | succ f ih =>
    intro k s hfuel
    by_cases hdl : (k : Int) * 1000 + d > 1000 * t
    · rcases Nat.eq_zero_or_pos k with hk | hk
      · subst hk
        rw [wait_loop_deadline0 env t d (f + 1) s (show d > 1000 * t by push_cast at hdl; omega)]
        simp
      · rw [wait_loop_deadline env t d k (f + 1) s hdl (by omega)]
        simp
    · cases hb : get_upload_band (env s.reads) false with
      | error e =>
        have he := get_upload_band_error_eq _ _ _ hb
        rw [wait_loop_poll_error env t d k (f + 1) s e hdl hb]
        simp [he]
      | ok ob =>
        cases ob with
        | none =>
          rw [wait_loop_poll_none env t d k f s hdl hb]
          refine ih (k + 1) (recordRead s) ?_
          push_cast
          push_cast at hfuel
          omega
        | some b =>
          rw [wait_loop_poll_some env t d k (f + 1) s b hdl hb]
          simp

/-- Every error escaping the polling loop is the `NameError`, the fuel
marker, or the missing-band `RuntimeError`; in particular it is never the
too-large-timeout `RuntimeError`. -/
theorem wait_loop_error_classified (env : Nat → Doc) (t d : Int) :
    ∀ fuel (k : Nat) (s : RState) (e : PyError),
      (wait_loop env t d k fuel s).result = .error e →
      e = .nameError ∨ e = .nonTermination ∨
        e = .runtimeError "No band entry in device signal." := by
  intro fuel
  induction fuel with
  | zero =>
    intro k s e h
    by_cases hdl : (k : Int) * 1000 + d > 1000 * t
    · rcases Nat.eq_zero_or_pos k with hk | hk
      · subst hk
        rw [wait_loop_deadline0 env t d 0 s (show d > 1000 * t by push_cast at hdl; omega)] at h
        simp at h
        simp [← h]
      · rw [wait_loop_deadline env t d k 0 s hdl (by omega)] at h
        simp at h
    · cases hb : get_upload_band (env s.reads) false with
      | error e2 =>
        have he := get_upload_band_error_eq _ _ _ hb
        rw [wait_loop_poll_error env t d k 0 s e2 hdl hb] at h
        simp at h
        simp [← h, he]
      | ok ob =>
        cases ob with
        | none =>
          rw [wait_loop_poll_none_zero env t d k s hdl hb] at h
          simp at h
          simp [← h]
        | some b =>
          rw [wait_loop_poll_some env t d k 0 s b hdl hb] at h
          simp at h
  | succ f ih =>
    intro k s e h
    by_cases hdl : (k : Int) * 1000 + d > 1000 * t
    · rcases Nat.eq_zero_or_pos k with hk | hk
      · subst hk
        rw [wait_loop_deadline0 env t d (f + 1) s (show d > 1000 * t by push_cast at hdl; omega)] at h
        simp at h
        simp [← h]
      · rw [wait_loop_deadline env t d k (f + 1) s hdl (by omega)] at h
        simp at h
    · cases hb : get_upload_band (env s.reads) false with
      | error e2 =>
        have he := get_upload_band_error_eq _ _ _ hb
        rw [wait_loop_poll_error env t d k (f + 1) s e2 hdl hb] at h
        simp at h
        simp [← h, he]
      | ok ob =>
        cases ob with
        | none =>
          rw [wait_loop_poll_none env t d k f s hdl hb] at h
          exact ih (k + 1) (recordRead s) e h
        | some b =>
          rw [wait_loop_poll_some env t d k (f + 1) s b hdl hb] at h
          simp at h

/-- If every poll sees an unattached router, `wait_loop` returns `False`
after `m ≥ 1` telemetry reads and one timeout log line, and issues no
control call. -/
theorem wait_loop_allNone (env : Nat → Doc) (t d : Int)
    (henv : ∀ n, get_upload_band (env n) false = .ok none) (hd : 0 ≤ d) :
    ∀ (fuel k : Nat) (s : RState), t - (k : Int) + 1 ≤ (fuel : Int) →
      ¬((k : Int) * 1000 + d > 1000 * t) →
      ∃ m : Nat, 1 ≤ m ∧ wait_loop env t d k fuel s =
        ⟨.ok false,
         { reads := s.reads + m,
           trace := s.trace ++ List.replicate m .readSignal,
           log := s.log ++ [noAntennaLogMsg] }⟩ := by
  intro fuel
  induction fuel with
  | zero =>
    intro k s hfuel hdl
    exfalso
    omega
  | succ f ih =>
    intro k s hfuel hdl
    rw [wait_loop_poll_none env t d k f s hdl (henv s.reads)]
    by_cases hdl2 : ((k + 1 : Nat) : Int) * 1000 + d > 1000 * t
    · rw [wait_loop_deadline env t d (k + 1) f (recordRead s) hdl2 (by omega)]
      refine ⟨1, le_refl 1, ?_⟩
      simp [logger, recordRead]
    · obtain ⟨m, hm, heq⟩ := ih (k + 1) (recordRead s) (by push_cast at hfuel ⊢; omega) hdl2
      refine ⟨m + 1, by omega, ?_⟩
      rw [heq]
      simp only [recordRead, List.replicate_succ]
      refine congrArg (Res.mk (.ok false)) ?_
      simp [List.append_assoc]
      omega

/-- At the default timeout, with a realistic (sub-second, nonnegative)
drift, a never-attaching router makes `wait_for_connection` return
`False`: some `m ≥ 1` polls and the timeout log line. -/
theorem wait_for_connection_allNone (env : Nat → Doc) (d : Int) (s : RState)
    (henv : ∀ n, get_upload_band (env n) false = .ok none)
    (hd0 : 0 ≤ d) (hd1 : d < 1000) :
    ∃ m : Nat, 1 ≤ m ∧ wait_for_connection env d connection_timeout s =
      ⟨.ok false,
       { reads := s.reads + m,
         trace := s.trace ++ List.replicate m .readSignal,
         log := s.log ++ [noAntennaLogMsg] }⟩ := by
  rw [wait_for_connection, if_neg (by norm_num [connection_timeout])]
  refine wait_loop_allNone env connection_timeout d henv hd0 122 0 s ?_ ?_
  · norm_num [connection_timeout]
  · push_cast
    simp only [connection_timeout]
    omega

/-- If the very first poll observes a band, `wait_for_connection` at the
default timeout returns `True` after exactly one read. -/
theorem wait_for_connection_first_some (env : Nat → Doc) (d : Int) (s : RState)
    (b : String) (hb : get_upload_band (env s.reads) false = .ok (some b))
    (hd0 : 0 ≤ d) (hd1 : d < 1000) :
    wait_for_connection env d connection_timeout s = ⟨.ok true, recordRead s⟩ := by
  rw [wait_for_connection, if_neg (by norm_num [connection_timeout])]
  refine wait_loop_poll_some env connection_timeout d 0 122 s b ?_ hb
  push_cast
  simp only [connection_timeout]
  omega

/-- If the very first poll raises, `wait_for_connection` at the default
timeout propagates that exception after exactly one read. -/
theorem wait_for_connection_first_error (env : Nat → Doc) (d : Int) (s : RState)
    (e : PyError) (hb : get_upload_band (env s.reads) false = .error e)
    (hd0 : 0 ≤ d) (hd1 : d < 1000) :
    wait_for_connection env d connection_timeout s = ⟨.error e, recordRead s⟩ := by
  rw [wait_for_connection, if_neg (by norm_num [connection_timeout])]
  refine wait_loop_poll_error env connection_timeout d 0 122 s e ?_ hb
  push_cast
  simp only [connection_timeout]
  omega

/-- The too-large-timeout message never coincides with the missing-band
message (they differ at the first character). -/
theorem timeout_msg_ne (x : String) :
    "Timeout value " ++ x ++ " is too large." ≠ "No band entry in device signal." := by
  intro h
  have h3 : ("Timeout value " ++ x ++ " is too large.").data.head? = some 'T' := by
    rw [String.data_append, String.data_append]
    rfl
  rw [h] at h3
  simp at h3

/-- C2: for every telemetry document and flag, `currentBand`
(`get_upload_band`) fails with the missing-band `RuntimeError` (the
spec's ParseError) exactly when the document has no `band` field at all
— not with a `none` result; returns `none` when the first `band` field
is present with empty value (router not attached); and otherwise
returns the normalized band identifier, `"B"`-prefixed by default and
bare-numeric under the `numerical` flag. -/
theorem currentBand_contract (doc : Doc) (numerical : Bool) :
    get_upload_band doc numerical =
      match doc.find? (fun c => c.1 == "band") with
      | none => .error (.runtimeError "No band entry in device signal.")
      | some (_, none) => .ok none
      | some (_, some t) => .ok (some (if numerical then t else "B" ++ t)) :=
  get_upload_band_eq_find doc numerical

/-- C5: `force_band_setting` with more than one upload band fails
immediately with `NotImplementedError` (the spec's
UnsupportedConfiguration) and leaves the state unchanged: zero Router
Control Interface calls are issued before failing. -/
theorem forceBandSetting_multi_upload_band (env : Nat → Doc) (d : Int)
    (ul dl : List String) (s : RState) (h : ul.length > 1) :
    force_band_setting env d ul dl s = ⟨.error .notImplementedError, s⟩ := by
  rw [force_band_setting, if_pos h]

/-- witness for `forceBandSetting_multi_upload_band` at a concrete input -/
theorem forceBandSetting_multi_upload_band_witness :
    (["B1", "B3"] : List String).length > 1 ∧
    force_band_setting envNone 0 ["B1", "B3"] download_bands rinit =
      ⟨.error .notImplementedError, rinit⟩ :=
  ⟨by norm_num,
   forceBandSetting_multi_upload_band envNone 0 ["B1", "B3"] download_bands rinit
     (by norm_num)⟩

/-- C7: for every timeout `t > 120`, `wait_for_connection` fails with the
ConfigError (`RuntimeError("Timeout value ... is too large.")`) with the
state unchanged — before issuing any telemetry poll; for every
`t ≤ 120` no such error is raised (every error the call can produce
differs from it) and execution proceeds to the polling loop. -/
theorem waitForConnection_timeout_guard (env : Nat → Doc) (d t : Int) (s : RState) :
    (t > 120 →
      wait_for_connection env d t s =
        ⟨.error (.runtimeError ("Timeout value " ++ toString t ++ " is too large.")), s⟩)
    ∧ (t ≤ 120 →
        wait_for_connection env d t s = wait_loop env t d 0 122 s
        ∧ ∀ e : PyError, (wait_for_connection env d t s).result = .error e →
            e ≠ .runtimeError ("Timeout value " ++ toString t ++ " is too large.")) := by
  constructor
  · intro ht
    rw [wait_for_connection, if_pos ht]
  · intro ht
    have hng : ¬t > 120 := by omega
    refine ⟨by rw [wait_for_connection, if_neg hng], ?_⟩
    intro e he
    rw [wait_for_connection, if_neg hng] at he
    rcases wait_loop_error_classified env t d 122 0 s e he with h | h | h
    · subst h; simp
    · subst h; simp
    · subst h
      intro hc
      have hmsg := (PyError.runtimeError.injEq _ _).mp hc
      exact timeout_msg_ne (toString t) hmsg.symm

/-- witness for `waitForConnection_timeout_guard` at `t = 121` -/
theorem waitForConnection_timeout_guard_witness :
    (121 : Int) > 120 ∧
    wait_for_connection envNone 0 121 rinit =
      ⟨.error (.runtimeError
        ("Timeout value " ++ toString (121 : Int) ++ " is too large.")), rinit⟩ :=
  ⟨by norm_num, (waitForConnection_timeout_guard envNone 0 121 rinit).1 (by norm_num)⟩

/-- C1: the four error kinds, as surfaced by actual runs — ConfigError
(timeout too large), ParseError (telemetry missing the band field),
UnsupportedConfiguration (more than one upload band), NoAntenna (no
attachment within the timeouts) — are pairwise-distinguishable values,
each also distinct from the generic `Exception` raised in `main`. -/
theorem error_kinds_distinguishable :
    (wait_for_connection envNone 0 121 rinit).result =
      .error (.runtimeError "Timeout value 121 is too large.")
    ∧ get_upload_band (envNoBand 0) false =
      .error (.runtimeError "No band entry in device signal.")
    ∧ (force_band_setting envNone 0 ["B1", "B3"] download_bands rinit).result =
      .error .notImplementedError
    ∧ (force_band_setting envNone 0 upload_bands download_bands rinit).result =
      .error (.runtimeError "Could not acquire any antenna #1.")
    ∧ List.Pairwise (fun a b => a ≠ b)
      [PyError.runtimeError "Timeout value 121 is too large.",
       PyError.runtimeError "No band entry in device signal.",
       PyError.notImplementedError,
       PyError.runtimeError "Could not acquire any antenna #1.",
       PyError.genericException ("Router " ++ router_name ++ ": Forcing bands failed.")] := by
  refine ⟨?_, ?_, ?_, ?_, ?_⟩ <;> decide

/-- C10: for every call with a positive timeout at most 120 and a
realistic drift (`0 ≤ d < 1000` ms), at least one telemetry poll is
executed and the result is never the unassigned-variable `NameError`
(nor the fuel marker), so the returned boolean is well-defined; for
every timeout ≤ 0, an admissible drift (1 ms) makes the deadline check
fire before any poll and the `return ul_band is not None` reads the
never-assigned local: `NameError`, with the read counter untouched.
The function is therefore not total over all integer timeouts. -/
theorem waitForConnection_totality (env : Nat → Doc) (t : Int) (s : RState) :
    (∀ d : Int, 1 ≤ t → t ≤ 120 → 0 ≤ d → d < 1000 →
      s.reads + 1 ≤ (wait_for_connection env d t s).state.reads
      ∧ (wait_for_connection env d t s).result ≠ .error .nameError
      ∧ (wait_for_connection env d t s).result ≠ .error .nonTermination)
    ∧ (t ≤ 0 →
        wait_for_connection env 1 t s = ⟨.error .nameError, logger noAntennaLogMsg s⟩
        ∧ (logger noAntennaLogMsg s).reads = s.reads) := by
  constructor
  · intro d ht1 ht2 hd0 hd1
    have hng : ¬t > 120 := by omega
    have hdl0 : ¬(((0 : Nat) : Int) * 1000 + d > 1000 * t) := by push_cast; omega
    rw [wait_for_connection, if_neg hng]
    cases hb : get_upload_band (env s.reads) false with
    | error e =>
      have he := get_upload_band_error_eq _ _ _ hb
      rw [wait_loop_poll_error env t d 0 122 s e hdl0 hb]
      simp [recordRead, he]
    | ok ob =>
      cases ob with
      | none =>
        have h122 : (122 : Nat) = 121 + 1 := rfl
        rw [h122, wait_loop_poll_none env t d 0 121 s hdl0 hb]
        refine ⟨?_, ?_, ?_⟩
        · have := wait_loop_reads_mono env t d 121 (0 + 1) (recordRead s)
          have hr : (recordRead s).reads = s.reads + 1 := by simp [recordRead]
          omega
        · exact wait_loop_no_nameError env t d 121 (0 + 1) (recordRead s) (by omega)
        · exact wait_loop_no_nonTermination env t d hd0 121 (0 + 1) (recordRead s)
            (by push_cast; omega)
      | some b =>
        rw [wait_loop_poll_some env t d 0 122 s b hdl0 hb]
        simp [recordRead]
  · intro ht
    have hng : ¬t > 120 := by omega
    refine ⟨?_, by simp [logger]⟩
    rw [wait_for_connection, if_neg hng]
    exact wait_loop_deadline0 env t 1 122 s (by omega)

/-- witness for `waitForConnection_totality`: both branches at concrete
inputs (`t = 20` with drift 5, and `t = 0`). -/
theorem waitForConnection_totality_witness :
    (rinit.reads + 1 ≤ (wait_for_connection envB28 5 20 rinit).state.reads
     ∧ (wait_for_connection envB28 5 20 rinit).result ≠ .error .nameError
     ∧ (wait_for_connection envB28 5 20 rinit).result ≠ .error .nonTermination)
    ∧ wait_for_connection envB28 1 0 rinit =
        ⟨.error .nameError, logger noAntennaLogMsg rinit⟩ :=
  ⟨(waitForConnection_totality envB28 20 rinit).1 5
      (by norm_num) (by norm_num) (by norm_num) (by norm_num),
   ((waitForConnection_totality envB28 0 rinit).2 (by norm_num)).1⟩

/-- `controlCalls` distributes over append. -/
theorem controlCalls_append (a b : List ApiCall) :
    controlCalls (a ++ b) = controlCalls a ++ controlCalls b := by
  simp [controlCalls, List.filter_append]

/-- telemetry reads are not control calls -/
theorem controlCalls_replicate_read (m : Nat) :
    controlCalls (List.replicate m .readSignal) = [] := by
  induction m with
  | zero => rfl
  | succ n ih =>
    rw [List.replicate_succ]
    simp [controlCalls, ApiCall.isControl]

/-- The polling loop only ever adds telemetry reads to the trace. -/
theorem wait_loop_trace_delta (env : Nat → Doc) (t d : Int) :
    ∀ (fuel k : Nat) (s : RState), ∃ n : Nat,
      (wait_loop env t d k fuel s).state.trace =
        s.trace ++ List.replicate n .readSignal := by
  intro fuel
  induction fuel with
  | zero =>
    intro k s
    by_cases hdl : (k : Int) * 1000 + d > 1000 * t
    · rcases Nat.eq_zero_or_pos k with hk | hk
      · subst hk
        rw [wait_loop_deadline0 env t d 0 s (show d > 1000 * t by push_cast at hdl; omega)]
        exact ⟨0, by simp [logger]⟩
      · rw [wait_loop_deadline env t d k 0 s hdl (by omega)]
        exact ⟨0, by simp [logger]⟩
    · cases hb : get_upload_band (env s.reads) false with
      | error e =>
        rw [wait_loop_poll_error env t d k 0 s e hdl hb]
        exact ⟨1, by simp [recordRead]⟩
      | ok ob =>
        cases ob with
        | none =>
          rw [wait_loop_poll_none_zero env t d k s hdl hb]
          exact ⟨1, by simp [recordRead]⟩
        | some b =>
          rw [wait_loop_poll_some env t d k 0 s b hdl hb]
          exact ⟨1, by simp [recordRead]⟩
  | succ f ih =>
    intro k s
    by_cases hdl : (k : Int) * 1000 + d > 1000 * t
    · rcases Nat.eq_zero_or_pos k with hk | hk
      · subst hk
        rw [wait_loop_deadline0 env t d (f + 1) s
          (show d > 1000 * t by push_cast at hdl; omega)]
        exact ⟨0, by simp [logger]⟩
      · rw [wait_loop_deadline env t d k (f + 1) s hdl (by omega)]
        exact ⟨0, by simp [logger]⟩
    · cases hb : get_upload_band (env s.reads) false with
      | error e =>
        rw [wait_loop_poll_error env t d k (f + 1) s e hdl hb]
        exact ⟨1, by simp [recordRead]⟩
      | ok ob =>
        cases ob with
        | none =>
          rw [wait_loop_poll_none env t d k f s hdl hb]
          obtain ⟨n, hn⟩ := ih (k + 1) (recordRead s)
          refine ⟨n + 1, ?_⟩
          rw [hn]
          simp [recordRead, List.replicate_succ, List.append_assoc]
        | some b =>
          rw [wait_loop_poll_some env t d k (f + 1) s b hdl hb]
          exact ⟨1, by simp [recordRead]⟩

/-- `wait_for_connection` only ever adds telemetry reads to the trace. -/
theorem wait_for_connection_trace_delta (env : Nat → Doc) (d t : Int) (s : RState) :
    ∃ n : Nat, (wait_for_connection env d t s).state.trace =
      s.trace ++ List.replicate n .readSignal := by
  rw [wait_for_connection]
  by_cases ht : t > 120
  · rw [if_pos ht]
    exact ⟨0, by simp⟩
  · rw [if_neg ht]
    exact wait_loop_trace_delta env t d 122 0 s

/-- The no-baseline-attachment path of `force_band_setting`: both
connectivity tests fail, so after the single corrective unit the call
raises the first NoAntenna error. -/
theorem force_band_setting_no_attach_path (env : Nat → Doc) (d : Int)
    (ul dl : List String) (s sA sB : RState)
    (hlen : ¬ul.length > 1)
    (h1 : wait_for_connection env d connection_timeout s = ⟨.ok false, sA⟩)
    (h2 : wait_for_connection env d connection_timeout
            (toggle_data_off_on (force_4g (logger notConnectedLogMsg sA))) =
          ⟨.ok false, sB⟩) :
    force_band_setting env d ul dl s =
      ⟨.error (.runtimeError "Could not acquire any antenna #1."), sB⟩ := by
  rw [force_band_setting, if_neg hlen, h1]
  simp only [Bool.false_eq_true, if_false, h2, Bool.not_false, if_true]

/-- A never-attaching device drives `force_band_setting` to the first
NoAntenna error after exactly one 4G mode reset and one data-switch
off/on cycle, with no band-reconfiguration call. -/
theorem force_band_setting_allNone_aux (env : Nat → Doc) (d : Int)
    (ul dl : List String) (s : RState)
    (henv : ∀ n, get_upload_band (env n) false = .ok none)
    (hlen : ¬ul.length > 1) (hd0 : 0 ≤ d) (hd1 : d < 1000) :
    ∃ s2 : RState,
      force_band_setting env d ul dl s =
        ⟨.error (.runtimeError "Could not acquire any antenna #1."), s2⟩
      ∧ controlCalls (s2.trace.drop s.trace.length) =
          [.setNetworkMode "4G", .setDataswitchOff, .setDataswitchOn] := by
  obtain ⟨m1, hm1, hw1⟩ := wait_for_connection_allNone env d s henv hd0 hd1
  obtain ⟨m2, hm2, hw2⟩ := wait_for_connection_allNone env d
    (toggle_data_off_on (force_4g (logger notConnectedLogMsg
      { reads := s.reads + m1,
        trace := s.trace ++ List.replicate m1 .readSignal,
        log := s.log ++ [noAntennaLogMsg] }))) henv hd0 hd1
  refine ⟨_, force_band_setting_no_attach_path env d ul dl s _ _ hlen hw1 hw2, ?_⟩
  simp [toggle_data_off_on, force_4g, logger, List.append_assoc, List.drop_left,
    controlCalls_append, controlCalls_replicate_read, controlCalls, ApiCall.isControl]

/-- C3: if the device never attaches (`currentBand` always `none`)
within every polling window, `force_band_setting` fails with NoAntenna
(`RuntimeError("Could not acquire any antenna #1.")`) after exactly one
network-mode reset to 4G and exactly one data-switch off/on cycle, and
it never issues a band-reconfiguration call. -/
theorem forceBandSetting_never_attached (env : Nat → Doc) (d : Int)
    (ul dl : List String) (s : RState)
    (henv : ∀ n, get_upload_band (env n) false = .ok none)
    (hlen : ¬ul.length > 1) (hd0 : 0 ≤ d) (hd1 : d < 1000) :
    ∃ s2 : RState,
      force_band_setting env d ul dl s =
        ⟨.error (.runtimeError "Could not acquire any antenna #1."), s2⟩
      ∧ controlCalls (s2.trace.drop s.trace.length) =
          [.setNetworkMode "4G", .setDataswitchOff, .setDataswitchOn] :=
  force_band_setting_allNone_aux env d ul dl s henv hlen hd0 hd1

/-- witness for `forceBandSetting_never_attached` at a concrete input -/
theorem forceBandSetting_never_attached_witness :
    ∃ s2 : RState,
      force_band_setting envNone 0 upload_bands download_bands rinit =
        ⟨.error (.runtimeError "Could not acquire any antenna #1."), s2⟩
      ∧ controlCalls (s2.trace.drop rinit.trace.length) =
          [.setNetworkMode "4G", .setDataswitchOff, .setDataswitchOn] :=
  forceBandSetting_never_attached envNone 0 upload_bands download_bands rinit
    (fun _ => rfl) (by decide) (by norm_num) (by norm_num)

/-- C4 counterexample: the claim says the already-correct outcome is
"tagged distinctly from Success"; in the code both are the bare boolean
`True`.  An already-attached run (which issues zero control calls) and
an enforcement run that converges (which issues two `set_lte_band`
calls) return equal outcome values. -/
theorem alreadyCorrect_not_tagged_distinct :
    (force_band_setting envB28 0 upload_bands download_bands rinit).result = .ok true
    ∧ controlCalls
        (force_band_setting envB28 0 upload_bands download_bands rinit).state.trace = []
    ∧ (force_band_setting envFix 0 upload_bands download_bands rinit).result = .ok true
    ∧ controlCalls
        (force_band_setting envFix 0 upload_bands download_bands rinit).state.trace =
        [.setLteBand upload_bands, .setLteBand download_bands]
    ∧ (force_band_setting envB28 0 upload_bands download_bands rinit).result =
        (force_band_setting envFix 0 upload_bands download_bands rinit).result := by
  refine ⟨?_, ?_, ?_, ?_, ?_⟩ <;> decide

/-- C4 (amended): when the router is already attached to the desired
upload band, `force_band_setting` returns `True` — the same outcome
value as Success, with no distinct AlreadyCorrect tag — and issues zero
band-reconfiguration, mode-reset, or data-switch calls: only three
telemetry reads. -/
theorem forceBandSetting_already_attached (env : Nat → Doc) (d : Int) (b : String)
    (ul dl : List String) (s : RState)
    (henv : ∀ n, get_upload_band (env n) false = .ok (some b))
    (hmem : b ∈ ul) (hlen : ¬ul.length > 1) (hd0 : 0 ≤ d) (hd1 : d < 1000) :
    force_band_setting env d ul dl s =
      ⟨.ok true, recordRead (recordRead (recordRead s))⟩
    ∧ controlCalls
        ((recordRead (recordRead (recordRead s))).trace.drop s.trace.length) = [] := by
  constructor
  · have hw1 := wait_for_connection_first_some env d s b (henv s.reads) hd0 hd1
    have hw2 := wait_for_connection_first_some env d (recordRead s) b
      (henv (recordRead s).reads) hd0 hd1
    rw [force_band_setting, if_neg hlen, hw1]
    simp only [hw2, Bool.not_true, Bool.false_eq_true, if_false, if_true,
      get_upload_band_r, read_signal, henv, optMem]
    simp [hmem]
  · simp [recordRead, List.append_assoc, List.drop_left, controlCalls_append,
      controlCalls, ApiCall.isControl]

/-- witness for `forceBandSetting_already_attached` at a concrete input -/
theorem forceBandSetting_already_attached_witness :
    force_band_setting envB28 0 upload_bands download_bands rinit =
      ⟨.ok true, recordRead (recordRead (recordRead rinit))⟩
    ∧ controlCalls
        ((recordRead (recordRead (recordRead rinit))).trace.drop rinit.trace.length) = [] :=
  forceBandSetting_already_attached envB28 0 "B28" upload_bands download_bands rinit
    (fun _ => rfl) (by decide) (by decide) (by norm_num) (by norm_num)

/-- C6: on the mismatch path (router attached, current band not in the
upload set), `force_band_setting` applies the band configuration exactly
twice — first the upload set, then the download set, in that order —
re-tests connectivity, and returns `True` (Success) if and only if the
freshly read band is in the upload set; the mismatch outcome (`False`)
is distinct from the NoAntenna error. -/
theorem forceBandSetting_mismatch_path (env : Nat → Doc) (d : Int)
    (ul dl : List String) (s s1 s2 s3 s4 s5 : RState) (b b2 : Option String)
    (hlen : ¬ul.length > 1)
    (h1 : wait_for_connection env d connection_timeout s = ⟨.ok true, s1⟩)
    (h2 : wait_for_connection env d connection_timeout s1 = ⟨.ok true, s2⟩)
    (h3 : get_upload_band_r env false s2 = ⟨.ok b, s3⟩)
    (hb : optMem b ul = false)
    (h4 : wait_for_connection env d connection_timeout
            (set_upload_bands dl (set_upload_bands ul s3)) = ⟨.ok true, s4⟩)
    (h5 : get_upload_band_r env false s4 = ⟨.ok b2, s5⟩) :
    force_band_setting env d ul dl s = ⟨.ok (optMem b2 ul), s5⟩
    ∧ controlCalls (s5.trace.drop s.trace.length) =
        [.setLteBand ul, .setLteBand dl]
    ∧ (Except.ok false : Except PyError Bool) ≠
        .error (.runtimeError "Could not acquire any antenna #2.") := by
  refine ⟨?_, ?_, by simp⟩
  · rw [force_band_setting, if_neg hlen, h1]
    simp only [eq_self_iff_true, if_true, h2, Bool.not_true, Bool.false_eq_true,
      if_false, h3, hb, h4, h5]
  · obtain ⟨n1, e1⟩ := wait_for_connection_trace_delta env d connection_timeout s
    rw [h1] at e1
    obtain ⟨n2, e2⟩ := wait_for_connection_trace_delta env d connection_timeout s1
    rw [h2] at e2
    have e1' : s1.trace = s.trace ++ List.replicate n1 ApiCall.readSignal := e1
    have e2' : s2.trace = s1.trace ++ List.replicate n2 ApiCall.readSignal := e2
    have e3 : s3 = recordRead s2 := by
      have h := congrArg Res.state h3
      simpa [get_upload_band_r, read_signal] using h.symm
    obtain ⟨n4, e4⟩ := wait_for_connection_trace_delta env d connection_timeout
      (set_upload_bands dl (set_upload_bands ul s3))
    rw [h4] at e4
    have e5 : s5 = recordRead s4 := by
      have h := congrArg Res.state h5
      simpa [get_upload_band_r, read_signal] using h.symm
    subst e3
    subst e5
    simp only [recordRead, set_upload_bands] at e4 ⊢
    simp [e4, e2', e1', recordRead, set_upload_bands, List.append_assoc, List.drop_left,
      controlCalls_append, controlCalls_replicate_read, controlCalls, ApiCall.isControl]

/-- witness for `forceBandSetting_mismatch_path`: attached to B3, upload
set `["B28"]`, download set `["B28","B3","B7"]`, reattaches to B28 after
the two configuration calls. -/
theorem forceBandSetting_mismatch_path_witness :
    force_band_setting envFix 0 upload_bands download_bands rinit =
      ⟨.ok (optMem (some "B28") upload_bands),
       ⟨5, [.readSignal, .readSignal, .readSignal, .setLteBand upload_bands,
            .setLteBand download_bands, .readSignal, .readSignal], []⟩⟩
    ∧ controlCalls
        ((⟨5, [.readSignal, .readSignal, .readSignal, .setLteBand upload_bands,
              .setLteBand download_bands, .readSignal, .readSignal], []⟩ : RState).trace.drop
          rinit.trace.length) =
        [.setLteBand upload_bands, .setLteBand download_bands]
    ∧ (Except.ok false : Except PyError Bool) ≠
        .error (.runtimeError "Could not acquire any antenna #2.") :=
  forceBandSetting_mismatch_path envFix 0 upload_bands download_bands rinit
    ⟨1, [.readSignal], []⟩
    ⟨2, [.readSignal, .readSignal], []⟩
    ⟨3, [.readSignal, .readSignal, .readSignal], []⟩
    ⟨4, [.readSignal, .readSignal, .readSignal, .setLteBand upload_bands,
         .setLteBand download_bands, .readSignal], []⟩
    ⟨5, [.readSignal, .readSignal, .readSignal, .setLteBand upload_bands,
         .setLteBand download_bands, .readSignal, .readSignal], []⟩
    (some "B3") (some "B28")
    (by decide) (by decide) (by decide) (by decide) (by decide) (by decide) (by decide)

/-- C9: the prefixed textual band form is exactly `"B"` prepended to the
numeric token, stripping that one-character head recovers the token, and
the `numerical` flag of `get_upload_band` selects between the two forms
of the same band: the bare-numeric read returns `t` exactly when the
default read returns `"B" ++ t`. -/
theorem band_format_round_trip (doc : Doc) (t : String) :
    (get_upload_band doc true = .ok (some t) ↔
      get_upload_band doc false = .ok (some ("B" ++ t)))
    ∧ ("B" ++ t).data = 'B' :: t.data
    ∧ String.mk (("B" ++ t).data.drop 1) = t := by
  have hB : ∀ w : String, ("B" ++ w).data = 'B' :: w.data := fun w => by
    rw [String.data_append]
    rfl
  refine ⟨?_, hB t, by rw [String.data_append]; rfl⟩
  induction doc with
  | nil => simp [get_upload_band]
  | cons c rest ih =>
    obtain ⟨tag, text⟩ := c
    by_cases htag : tag = "band"
    · subst htag
      cases text with
      | none => simp [get_upload_band]
      | some u =>
        constructor
        · intro h
          have hu : u = t := by simpa [get_upload_band] using h
          simp [get_upload_band, hu]
        · intro h
          have hBu : "B" ++ u = "B" ++ t := by simpa [get_upload_band] using h
          have hd := congrArg String.data hBu
          rw [hB u, hB t] at hd
          injection hd with h1 h2
          have hu : u = t := congrArg String.mk h2
          simp [get_upload_band, hu]
    · simpa [get_upload_band, htag] using ih

/-- One-step unfolding of the `main` loop: guard read raises — the
exception escapes the loop (the guard is outside the `try`). -/
theorem main_loop_guard_error_step (env : Nat → Doc) (d : Int) (ul0 : String)
    (ult dl : List String) (fuel : Nat) (s s1 : RState) (e : PyError)
    (h : get_upload_band_r env false s = ⟨.error e, s1⟩) :
    main_loop env d (ul0 :: ult) dl (fuel + 1) s = .uncaught e s1 := by
  rw [main_loop]
  simp only [h]

/-- One-step unfolding of the `main` loop: guard read sees the desired
band — the `while` condition is false and the loop exits. -/
theorem main_loop_exit_step (env : Nat → Doc) (d : Int) (ul0 : String)
    (ult dl : List String) (fuel : Nat) (s s1 : RState)
    (h : get_upload_band_r env false s = ⟨.ok (some ul0), s1⟩) :
    main_loop env d (ul0 :: ult) dl (fuel + 1) s = .exited s1 := by
  rw [main_loop]
  simp only [h, eq_self_iff_true, if_true]

/-- One-step unfolding of the `main` loop: guard read sees a wrong band
but the second read (the logger argument, also outside the `try`)
raises — the exception escapes the loop. -/
theorem main_loop_log_error_step (env : Nat → Doc) (d : Int) (ul0 : String)
    (ult dl : List String) (fuel : Nat) (s s1 s2 : RState) (b : Option String)
    (e : PyError)
    (h1 : get_upload_band_r env false s = ⟨.ok b, s1⟩) (hb : b ≠ some ul0)
    (h2 : get_upload_band_r env false s1 = ⟨.error e, s2⟩) :
    main_loop env d (ul0 :: ult) dl (fuel + 1) s = .uncaught e s2 := by
  rw [main_loop]
  simp only [h1, if_neg hb, h2]

/-- One-step unfolding of the `main` loop: guard read sees a wrong band,
the iteration logs and runs `force_band_setting`, and every outcome of
that call continues the loop (the `try/except` catches everything). -/
theorem main_loop_iter_step (env : Nat → Doc) (d : Int) (ul0 : String)
    (ult dl : List String) (fuel : Nat) (s s1 s2 : RState) (b b2 : Option String)
    (h1 : get_upload_band_r env false s = ⟨.ok b, s1⟩) (hb : b ≠ some ul0)
    (h2 : get_upload_band_r env false s1 = ⟨.ok b2, s2⟩) :
    main_loop env d (ul0 :: ult) dl (fuel + 1) s =
      match force_band_setting env d (ul0 :: ult) dl
        (logger (usingBandLogMsg b2 ul0) s2) with
      | ⟨.ok true, s4⟩ => main_loop env d (ul0 :: ult) dl fuel s4
      | ⟨.ok false, s4⟩ =>
        main_loop env d (ul0 :: ult) dl fuel
          (logger (forcingFailedMsg ++ ", retrying...") s4)
      | ⟨.error e, s4⟩ =>
        if e.isRuntimeError then
          main_loop env d (ul0 :: ult) dl fuel (logger noSignalRetryMsg s4)
        else
          main_loop env d (ul0 :: ult) dl fuel (logger (e.pyStr ++ ", retrying...") s4) := by
  rw [main_loop]
  simp only [h1, if_neg hb, h2]

/-- C8: the `main` enforcement loop (i) on a NoAntenna (`RuntimeError`)
outcome from `force_band_setting` logs the manual band-list-reset
diagnostic and retries; (ii) on a band-mismatch outcome (`False`, turned
into the generic `Exception` and caught) logs and retries; (iii) exits
only when a guard read observes the desired upload band; (iv) with a
never-attaching device it is still running after every number of
iterations — there is no attempt cap and no distinct exhausted-retries
failure state. -/
theorem main_loop_retry_policy (env : Nat → Doc) (d : Int) (ul0 : String)
    (ult dl : List String) :
    (∀ (fuel : Nat) (s s1 s2 s3 : RState) (b b2 : Option String) (m : String),
      get_upload_band_r env false s = ⟨.ok b, s1⟩ → b ≠ some ul0 →
      get_upload_band_r env false s1 = ⟨.ok b2, s2⟩ →
      force_band_setting env d (ul0 :: ult) dl (logger (usingBandLogMsg b2 ul0) s2) =
        ⟨.error (.runtimeError m), s3⟩ →
      main_loop env d (ul0 :: ult) dl (fuel + 1) s =
        main_loop env d (ul0 :: ult) dl fuel (logger noSignalRetryMsg s3))
    ∧ (∀ (fuel : Nat) (s s1 s2 s3 : RState) (b b2 : Option String),
      get_upload_band_r env false s = ⟨.ok b, s1⟩ → b ≠ some ul0 →
      get_upload_band_r env false s1 = ⟨.ok b2, s2⟩ →
      force_band_setting env d (ul0 :: ult) dl (logger (usingBandLogMsg b2 ul0) s2) =
        ⟨.ok false, s3⟩ →
      main_loop env d (ul0 :: ult) dl (fuel + 1) s =
        main_loop env d (ul0 :: ult) dl fuel
          (logger (forcingFailedMsg ++ ", retrying...") s3))
    ∧ (∀ (fuel : Nat) (s s2 : RState),
        main_loop env d (ul0 :: ult) dl fuel s = .exited s2 →
        ∃ spre : RState, get_upload_band_r env false spre = ⟨.ok (some ul0), s2⟩)
    ∧ ((∀ n, get_upload_band (env n) false = .ok none) →
        ¬(ul0 :: ult).length > 1 → 0 ≤ d → d < 1000 →
        ∀ (fuel : Nat) (s : RState), ∃ s2 : RState,
          main_loop env d (ul0 :: ult) dl fuel s = .running s2) := by
  refine ⟨?_, ?_, ?_, ?_⟩
  · intro fuel s s1 s2 s3 b b2 m h1 hb h2 hf
    rw [main_loop_iter_step env d ul0 ult dl fuel s s1 s2 b b2 h1 hb h2, hf]
    rfl
  · intro fuel s s1 s2 s3 b b2 h1 hb h2 hf
    rw [main_loop_iter_step env d ul0 ult dl fuel s s1 s2 b b2 h1 hb h2, hf]
  · intro fuel
    induction fuel with
    | zero =>
      intro s s2 h
      simp [main_loop] at h
    | succ f ih =>
      intro s s2 h
      cases hg : get_upload_band (env s.reads) false with
      | error e =>
        have h1 : get_upload_band_r env false s = ⟨.error e, recordRead s⟩ := by
          simp [get_upload_band_r, read_signal, hg]
        rw [main_loop_guard_error_step env d ul0 ult dl f s (recordRead s) e h1] at h
        simp at h
      | ok b =>
        have h1 : get_upload_band_r env false s = ⟨.ok b, recordRead s⟩ := by
          simp [get_upload_band_r, read_signal, hg]
        by_cases hb : b = some ul0
        · subst hb
          rw [main_loop_exit_step env d ul0 ult dl f s (recordRead s) h1] at h
          injection h with h2
          exact ⟨s, h2 ▸ h1⟩
        · cases hg2 : get_upload_band (env (recordRead s).reads) false with
          | error e2 =>
            have h2 : get_upload_band_r env false (recordRead s) =
                ⟨.error e2, recordRead (recordRead s)⟩ := by
              simp [get_upload_band_r, read_signal, hg2]
            rw [main_loop_log_error_step env d ul0 ult dl f s (recordRead s)
              (recordRead (recordRead s)) b e2 h1 hb h2] at h
            simp at h
          | ok b2 =>
            have h2 : get_upload_band_r env false (recordRead s) =
                ⟨.ok b2, recordRead (recordRead s)⟩ := by
              simp [get_upload_band_r, read_signal, hg2]
            rw [main_loop_iter_step env d ul0 ult dl f s (recordRead s)
              (recordRead (recordRead s)) b b2 h1 hb h2] at h
            cases hf : force_band_setting env d (ul0 :: ult) dl
              (logger (usingBandLogMsg b2 ul0) (recordRead (recordRead s))) with
            | mk res st =>
              cases res with
              | error e =>
                simp only [hf] at h
                by_cases hre : e.isRuntimeError = true
                · rw [if_pos hre] at h
                  exact ih _ _ h
                · rw [if_neg hre] at h
                  exact ih _ _ h
              | ok bv =>
                cases bv
                · simp only [hf] at h
                  exact ih _ _ h
                · simp only [hf] at h
                  exact ih _ _ h
  · intro henv hlen hd0 hd1 fuel
    induction fuel with
    | zero =>
      intro s
      exact ⟨s, rfl⟩
    | succ f ih =>
      intro s
      have h1 : get_upload_band_r env false s = ⟨.ok none, recordRead s⟩ := by
        simp [get_upload_band_r, read_signal, henv]
      have h2 : get_upload_band_r env false (recordRead s) =
          ⟨.ok none, recordRead (recordRead s)⟩ := by
        simp [get_upload_band_r, read_signal, henv]
      obtain ⟨s4, hf, -⟩ := force_band_setting_allNone_aux env d (ul0 :: ult) dl
        (logger (usingBandLogMsg none ul0) (recordRead (recordRead s))) henv hlen hd0 hd1
      obtain ⟨s5, h5⟩ := ih (logger noSignalRetryMsg s4)
      refine ⟨s5, ?_⟩
      rw [main_loop_iter_step env d ul0 ult dl f s (recordRead s)
        (recordRead (recordRead s)) none none h1 (by simp) h2, hf]
      simpa [PyError.isRuntimeError] using h5

/-- witness for `main_loop_retry_policy`: with a never-attaching device
the loop is still running after three iterations. -/
theorem main_loop_retry_policy_witness :
    ∃ s2 : RState, main_loop envNone 0 ["B28"] download_bands 3 rinit = .running s2 :=
  (main_loop_retry_policy envNone 0 "B28" [] download_bands).2.2.2
    (fun _ => rfl) (by decide) (by norm_num) (by norm_num) 3 rinit

end Manager
